import Mathlib

/-!
# MileSync multi-agent core: shallow embedding and verification

This file embeds the heuristic computations of the MileSync agent core
(`backend/app/agents/*.py`) as Lean definitions and proves the behavioural
properties stated in the design specification.

Modelling conventions:
* Python `str` values are Lean `String`s; `len` on a `str` counts code points,
  which coincides with `String.length`.
* ISO-8601 timestamps are abstracted to calendar-day ordinals (`Int`).  A task
  field that is missing or fails to parse is `none`; the agents treat both the
  same way wherever the distinction could matter (noted at each use site).
* Python integers are `Int`/`Nat`; Python `float` division is exact division in
  `ℚ`.  Where the source evaluates an expression in binary floating point, the
  definition's doc comment records why the exact value agrees with the float
  evaluation on every argument the program can supply.
* The `additional_context` side-channel dictionary is modelled by the concrete
  keys the agents read from it.
-/

namespace MileSync


/-- A single apostrophe, used to build string literals that contain one. -/
def apos : String := String.singleton (Char.ofNat 39)

/-- Does the character list `hay` start with `pat`? (List prefix test.) -/
def charsLeading : List Char → List Char → Bool
  | [], _ => true
  | _ :: _, [] => false
  | a :: as, b :: bs => a = b && charsLeading as bs

/-- Does the character list `hay` contain `pat` as a contiguous run? -/
def charsContain : List Char → List Char → Bool
  | pat, [] => charsLeading pat []
  | pat, c :: cs => charsLeading pat (c :: cs) || charsContain pat cs

/-- Python's substring test `pat in hay` on strings. -/
def strContains (hay pat : String) : Bool :=
  charsContain pat.toList hay.toList

/-- Python's `str.lower()`.  The agents' keyword lexicons are ASCII, where
this per-character mapping coincides with Python's Unicode lowering; it is
`String.toLower` written through the character list so that it evaluates by
kernel reduction. -/
def lowerStr (s : String) : String :=
  ⟨s.data.map Char.toLower⟩

/-- One `{role, content}` entry of `AgentContext.messages`. -/
structure Message where
  role : String
  content : String

/-- One record of `AgentContext.task_history`.  `createdDay`/`completedDay`
are the calendar days parsed from the `created_at`/`completed_at` ISO strings;
`none` stands for a missing or unparseable timestamp. -/
structure Task where
  title : String
  status : String
  createdDay : Option Int := none
  completedDay : Option Int := none

/-- The slice of `AgentContext` (`app/agents/base_agent.py`, imported by every
agent) that the verified computations read.  `generateAssessment` models the
truthiness of `additional_context.get("generate_assessment")` (false when the
key or the whole mapping is absent). -/
structure AgentContext where
  messages : List Message := []
  taskHistory : List Task := []
  generateAssessment : Bool := false

/-- The six agent identities (`AgentType` enum in `base_agent.py`). -/
inductive AgentType where
  | foundation
  | planning
  | execution
  | psychological
  | support
  | sustainability

/-- The fields of `AgentResponse` relevant to the claims (`base_agent.py`).
`create_response` fills exactly these fields. -/
structure AgentResponse where
  success : Bool
  message : String
  requiresUserInput : Bool := false
  nextAgent : Option AgentType := none

/-! ## Execution agent: streak computation (`ExecutionAgent._calculate_streak`) -/

/-- The backward walk of `_calculate_streak`: starting at `current`, count how
many consecutive days (walking one day back at a time) appear in `days`.  The
Python `while` loop terminates because `days` is finite; here `fuel` bounds the
iteration count, and `fuel = days.length` is enough because each counted day is
a distinct member of `days`. -/
def countStreak (days : List Int) : Int → Nat → Nat
  | _, 0 => 0
  | current, fuel + 1 =>
    if current ∈ days then countStreak days (current - 1) fuel + 1 else 0

/-- The completed tasks kept by `_calculate_streak` (status `"completed"` and a
truthy `completed_at`). -/
def completedTasks (taskHistory : List Task) : List Task :=
  taskHistory.filter fun t => t.status = "completed" && t.completedDay.isSome

/-- The `dates_with_completions` set of `_calculate_streak`: the distinct
calendar days carrying at least one parseable completion (membership in a list
is the same as membership in the set built from it). -/
def completionDates (taskHistory : List Task) : List Int :=
  (completedTasks taskHistory).filterMap (·.completedDay)

/-- `ExecutionAgent._calculate_streak`.  `today` is `datetime.utcnow().date()`.
The source filters the completed tasks, collects the parseable completion
dates into a set and walks backward from today.  A task whose `completed_at`
is present but unparseable contributes to neither the early `return 0` nor the
date set in a way that changes the result (the walk over an empty set already
yields 0), so `completedDay = none` covers both missing and unparseable
timestamps. -/
def calculateStreak (today : Int) (taskHistory : List Task) : Nat :=
  if taskHistory.isEmpty then 0
  else if (completedTasks taskHistory).isEmpty then 0
  else countStreak (completionDates taskHistory) today (completionDates taskHistory).length

/-! ## Psychological agent (`PsychologicalAgent`) -/

/-- The `low_motivation` keyword list of `_assess_emotional_state`. -/
def lowMotivationWords : List String :=
  ["can" ++ apos ++ "t", "won" ++ apos ++ "t", "tired", "exhausted", "giving up", "quit"]

/-- The `high_motivation` keyword list. -/
def highMotivationWords : List String :=
  ["excited", "eager", "ready", "motivated", "pumped"]

/-- The `stress_words` keyword list. -/
def stressKeywords : List String :=
  ["stressed", "anxious", "overwhelmed", "panic", "worried"]

/-- The `low_confidence` keyword list. -/
def lowConfidenceWords : List String :=
  ["stupid", "can" ++ apos ++ "t do", "not good enough", "failure", "imposter"]

/-- The `high_confidence` keyword list. -/
def highConfidenceWords : List String :=
  ["confident", "capable", "proud", "achieved", "succeeded"]

/-- How many of the listed keywords occur in `text` (each word adjusts the
score by one point, no matter how often it is repeated inside the text). -/
def countPresent (text : String) (words : List String) : Int :=
  ((words.filter fun w => strContains text w).length : Int)

/-- The concatenated lowercased user-turn text of `_assess_emotional_state`:
`" ".join(msg.content.lower() for msg in messages if msg.role == "user")`. -/
def userTextLower (messages : List Message) : String :=
  String.intercalate " " ((messages.filter (·.role = "user")).map fun m => lowerStr m.content)

/-- The `EmotionalAssessment` model of `base_agent.py` (fields as constructed
by `_assess_emotional_state`). -/
structure EmotionalAssessment where
  motivationLevel : Int
  stressLevel : Int
  confidenceLevel : Int
  detectedPatterns : List String

/-- The cognitive-distortion scan of `_assess_emotional_state` (substring
presence, in source order, at most the first three kept by the caller). -/
def detectPatterns (allText : String) : List String :=
  (if strContains allText "always" || strContains allText "never"
    then ["All-or-nothing thinking"] else [])
  ++ (if strContains allText "should" || strContains allText "must"
    then ["Should statements"] else [])
  ++ (if strContains allText "worst" || strContains allText "terrible"
    then ["Catastrophizing"] else [])
  ++ (if strContains allText "my fault" || strContains allText "blame myself"
    then ["Personalization"] else [])

/-- `PsychologicalAgent._assess_emotional_state`: start every score at 5,
adjust by ±1 per matched keyword category, clamp to `[1, 10]`, and keep at
most three detected patterns.  With no messages the keyword block is skipped
and the neutral scores are clamped unchanged. -/
def assessEmotionalState (ctx : AgentContext) : EmotionalAssessment :=
  let raw :=
    if ctx.messages.isEmpty then ((5 : Int), (5 : Int), (5 : Int), ([] : List String))
    else
      let allText := userTextLower ctx.messages
      (5 - countPresent allText lowMotivationWords + countPresent allText highMotivationWords,
       5 + countPresent allText stressKeywords,
       5 - countPresent allText lowConfidenceWords + countPresent allText highConfidenceWords,
       detectPatterns allText)
  { motivationLevel := max 1 (min 10 raw.1)
    stressLevel := max 1 (min 10 raw.2.1)
    confidenceLevel := max 1 (min 10 raw.2.2.1)
    detectedPatterns := raw.2.2.2.take 3 }

/-- The `Intervention` model of `base_agent.py` (fields as constructed by the
`_create_*_intervention` helpers). -/
structure Intervention where
  interventionType : String
  technique : String
  message : String
  exercises : List String

/-- `PsychologicalAgent._create_stress_intervention`. -/
def createStressIntervention : Intervention where
  interventionType := "STRESS_MANAGEMENT"
  technique := "4-7-8 Breathing"
  message := "I notice you might be feeling stressed. Let" ++ apos ++ "s take a moment to breathe."
  exercises :=
    ["Breathe in through your nose for 4 counts",
     "Hold your breath for 7 counts",
     "Exhale slowly through your mouth for 8 counts",
     "Repeat 3-4 times"]

/-- `PsychologicalAgent._create_motivation_intervention`. -/
def createMotivationIntervention : Intervention where
  interventionType := "MOTIVATION_BOOST"
  technique := "2-Minute Rule"
  message := "Feeling unmotivated? Let" ++ apos ++ "s use a proven technique to get started."
  exercises :=
    ["Pick the smallest possible version of your task",
     "Commit to just 2 minutes of work",
     "Often, starting is the hardest part",
     "Once you start, you" ++ apos ++ "ll likely want to continue"]

/-- `PsychologicalAgent._create_confidence_intervention`. -/
def createConfidenceIntervention : Intervention where
  interventionType := "CONFIDENCE_BUILDING"
  technique := "Past Wins Reflection"
  message := "Let" ++ apos ++ "s remind ourselves of what you" ++ apos ++ "ve already accomplished."
  exercises :=
    ["Think of 3 challenges you" ++ apos ++ "ve overcome before",
     "Remember how you felt after succeeding",
     "Recognize that those same skills apply here",
     "You" ++ apos ++ "ve done hard things before - you can do this too"]

/-- The fixed `reframes` mapping of `_create_reframing_intervention`; an
unknown pattern name falls back to the `.get` default. -/
def reframeText (pattern : String) : String :=
  if pattern = "All-or-nothing thinking" then
    "Replace " ++ apos ++ "always/never" ++ apos ++ " with " ++ apos ++ "sometimes/often"
      ++ apos ++ ". Progress isn" ++ apos ++ "t all-or-nothing."
  else if pattern = "Should statements" then
    "Replace " ++ apos ++ "should" ++ apos ++ " with " ++ apos ++ "could" ++ apos
      ++ " or " ++ apos ++ "want to" ++ apos ++ ". You have choices, not obligations."
  else if pattern = "Catastrophizing" then
    "Ask: What" ++ apos ++ "s the realistic worst case? Usually it" ++ apos
      ++ "s more manageable than we fear."
  else if pattern = "Personalization" then
    "Remember: Many factors affect outcomes. Not everything is within your control."
  else "Consider an alternative perspective"

/-- `PsychologicalAgent._create_reframing_intervention`. -/
def createReframingIntervention (pattern : String) : Intervention where
  interventionType := "COGNITIVE_REFRAMING"
  technique := "Thought Challenging"
  message := "I noticed a pattern: " ++ pattern ++ ". Let" ++ apos ++ "s reframe this."
  exercises :=
    [reframeText pattern,
     "Write down the thought",
     "Ask: Is this thought helpful?",
     "Create a more balanced alternative"]

/-- `PsychologicalAgent._create_general_support`. -/
def createGeneralSupport : Intervention where
  interventionType := "GENERAL_SUPPORT"
  technique := "Self-Compassion"
  message := "Remember to be kind to yourself on this journey."
  exercises :=
    ["Acknowledge that this is challenging",
     "Remind yourself that struggle is part of growth",
     "Treat yourself as you would a good friend",
     "Take one small step forward today"]

/-- The intervention-type dispatch at the top of
`PsychologicalAgent._provide_intervention`: a pure function of the assessment,
tried in the fixed source order. -/
def selectIntervention (a : EmotionalAssessment) : Intervention :=
  if 7 < a.stressLevel then createStressIntervention
  else if a.motivationLevel < 4 then createMotivationIntervention
  else if a.confidenceLevel < 4 then createConfidenceIntervention
  else
    match a.detectedPatterns with
    | p :: _ => createReframingIntervention p
    | [] => createGeneralSupport

/-! ## Execution agent: daily summary (`ExecutionAgent._generate_daily_summary`) -/

/-- `ExecutionAgent._is_today`: true when the timestamp parses to today's
calendar day (false on a missing or unparseable string). -/
def isTodayDay (today : Int) (d : Option Int) : Bool :=
  match d with
  | some x => x = today
  | none => false

/-- Round-half-even of a rational, as CPython's `round` applies it to the
decimal value of a float. -/
def roundHalfEven (q : ℚ) : ℤ :=
  if q - ⌊q⌋ = 1 / 2 then (if ⌊q⌋ % 2 = 0 then ⌊q⌋ else ⌊q⌋ + 1) else round q

/-- `round(q, 2)`: round to two decimal places, ties to even.  The source
applies this to the binary-float value of the rate, which can move a result
within `1/100` of the exact one near tie points; every property proved below
is invariant under that perturbation (both candidates stay inside the proved
bounds). -/
def round2 (q : ℚ) : ℚ :=
  (roundHalfEven (q * 100) : ℚ) / 100

/-- The `DailySummary` model of `base_agent.py` (fields as constructed by
`_generate_daily_summary`). -/
structure DailySummary where
  tasksCompleted : Nat
  tasksPending : Nat
  streakCount : Nat
  completionRate : ℚ

/-- The `ExecutionOutput` model of `base_agent.py` (fields as constructed by
`_generate_daily_summary`). -/
structure ExecutionOutput where
  dailySummary : DailySummary
  adjustmentsRecommended : List String
  blockersIdentified : List String
  nextActions : List String
  motivationalMessage : String

/-- The `today_tasks` filter of `_generate_daily_summary`. -/
def todayTasks (today : Int) (taskHistory : List Task) : List Task :=
  taskHistory.filter fun t => isTodayDay today t.createdDay

/-- The raw `completion_rate` of `_generate_daily_summary`:
`completed / len(today_tasks) if today_tasks else 0`.  Exact division in `ℚ`
models the float quotient; the threshold comparisons against 0.6/0.9/0.8/0.5
agree with the exact rational comparisons because `c/n` can only equal, never
straddle, those constants within float precision. -/
def completionRate (today : Int) (taskHistory : List Task) : ℚ :=
  if (todayTasks today taskHistory).isEmpty then 0
  else (((todayTasks today taskHistory).filter fun t => t.status = "completed").length : ℚ)
    / ((todayTasks today taskHistory).length : ℚ)

/-- `ExecutionAgent._generate_daily_summary` (the pure computation producing
the `ExecutionOutput`; the surrounding `create_response` only wraps it). -/
def generateDailySummary (today : Int) (ctx : AgentContext) : ExecutionOutput :=
  let tt := todayTasks today ctx.taskHistory
  let completed := (tt.filter fun t => t.status = "completed").length
  let pending := tt.length - completed
  let rate := completionRate today ctx.taskHistory
  let streak := calculateStreak today ctx.taskHistory
  let adjustments :=
    (if rate < (0.6 : ℚ) ∧ 2 < tt.length
      then ["Consider reducing daily tasks to 2 for better consistency"] else [])
    ++ (if (0.9 : ℚ) < rate then ["Great progress! Ready for a stretch goal?"] else [])
  let nextActions := ((tt.filter fun t => ¬ t.status = "completed").map (·.title)).take 3
  let motivational :=
    if (0.8 : ℚ) ≤ rate then "🎉 You" ++ apos ++ "re crushing it! Keep up the amazing work!"
    else if (0.5 : ℚ) ≤ rate then "💪 Good progress! Let" ++ apos ++ "s finish strong today."
    else "🌟 Every step counts. What" ++ apos ++ "s one thing you can do right now?"
  { dailySummary :=
      { tasksCompleted := completed
        tasksPending := pending
        streakCount := streak
        completionRate := round2 rate }
    adjustmentsRecommended := adjustments
    blockersIdentified := []
    nextActions := nextActions
    motivationalMessage := motivational }

/-! ## Sustainability agent: habit analysis (`SustainabilityAgent._analyze_habits`) -/

/-- Adding one task to the `recurring_tasks` dict: append to the existing
group for its title, or open a new group at the end (Python dicts preserve
insertion order). -/
def insertTask : List (String × List Task) → Task → List (String × List Task)
  | [], t => [(t.title, [t])]
  | (k, ts) :: rest, t =>
    if k = t.title then (k, ts ++ [t]) :: rest else (k, ts) :: insertTask rest t

/-- One step of the grouping loop: tasks with a falsy (empty) title are
skipped (`if title:`). -/
def groupStep (gs : List (String × List Task)) (t : Task) : List (String × List Task) :=
  if t.title = "" then gs else insertTask gs t

/-- The `recurring_tasks` grouping of `_analyze_habits`. -/
def groupByTitle (hist : List Task) : List (String × List Task) :=
  hist.foldl groupStep []

/-- Dictionary lookup on the association list (first matching key). -/
def lookupGroup : List (String × List Task) → String → List Task
  | [], _ => []
  | (k, ts) :: rest, key => if k = key then ts else lookupGroup rest key

/-- The keys of the grouping, in insertion order. -/
def groupKeys (gs : List (String × List Task)) : List String :=
  gs.map Prod.fst

/-- `len([t for t in tasks if t.get("status") == "completed"])`. -/
def completedIn (tasks : List Task) : Nat :=
  (tasks.filter fun t => t.status = "completed").length

/-- The number of completed occurrences of a given title in the history. -/
def titleCompletedCount (hist : List Task) (title : String) : Nat :=
  completedIn (hist.filter fun t => t.title = title)

/-- One `(cue, routine, reward)` habit-loop triple (`HabitLoop` model of
`base_agent.py`, fields as constructed by `_analyze_habits`). -/
structure HabitLoop where
  cue : String
  routine : String
  reward : String

/-- The `HabitAnalysis` model. `base_agent.py` is not among the provided
sources; the default field values used for `HabitAnalysis()` on an empty
history are modelled from the spec (score 0–100 starting from no data, no
loops) and coincide with what the general branch computes on an empty
history, so nothing downstream depends on the choice. -/
structure HabitAnalysis where
  habitScore : Nat := 0
  daysConsistent : Nat := 0
  habitLoops : List HabitLoop := []

/-- The habit-loop record built for a qualifying title. -/
def mkHabitLoop (title : String) : HabitLoop where
  cue := "Scheduled time for " ++ title
  routine := title
  reward := "Mark complete and see streak grow"

/-- The groups with at least seven completed occurrences (`len(completed) >= 7`). -/
def qualGroups (hist : List Task) : List (String × List Task) :=
  (groupByTitle hist).filter fun g => 7 ≤ completedIn g.2

/-- The running `days_consistent = max(days_consistent, len(completed))`
accumulated over the qualifying groups, starting from 0. -/
def daysConsistentOf (hist : List Task) : Nat :=
  (qualGroups hist).foldl (fun acc g => max acc (completedIn g.2)) 0

/-- `SustainabilityAgent._analyze_habits`.  The score line of the source is
`min(100, int((days_consistent / 90) * 100))` in binary floats; it equals the
exact `min 100 (d * 100 / 90)` for every `d` (the float value only deviates
from the exact quotient for `d ≥ 207`, where both sides are already capped
at 100 — checked exhaustively). -/
def analyzeHabits (hist : List Task) : HabitAnalysis :=
  if hist.isEmpty then {}
  else
    { habitScore := min 100 (daysConsistentOf hist * 100 / 90)
      daysConsistent := daysConsistentOf hist
      habitLoops := ((qualGroups hist).map fun g => mkHabitLoop g.1).take 3 }

/-- The habit-score formula exactly as the spec words it: `round` (nearest
integer) instead of the source's `int` truncation.  Kept only to compare
against the source behaviour. -/
def specHabitScore (maxCompletions : Nat) : ℤ :=
  min 100 (round ((100 * maxCompletions : ℚ) / 90))

/-! ## Sustainability agent: burnout and sustainability score -/

/-- The `stress_words` list of `_assess_burnout`. -/
def stressIndicatorWords : List String :=
  ["stressed", "overwhelmed", "tired", "exhausted", "can" ++ apos ++ "t", "failing"]

/-- The completion-rate-trend adjustment of `_assess_burnout` (0 when the
history is empty, since the whole block is guarded by `if task_history:`).
`recent` is `task_history[-7:]`, `older` is `task_history[-14:-7]` (empty
unless more than 14 records).  The float comparisons against `0.15` agree
with the exact rational ones for every pair of rates with denominator ≤ 7
(checked exhaustively, including the boundary `1/4 = 2/5 − 3/20`). -/
def burnoutTrendDelta (hist : List Task) : ℤ :=
  if hist.isEmpty then 0
  else
    let recent := if 7 < hist.length then hist.drop (hist.length - 7) else hist
    let older := if 14 < hist.length then (hist.drop (hist.length - 14)).take 7 else []
    let recentRate : ℚ := if recent.isEmpty then 0 else (completedIn recent : ℚ) / recent.length
    let olderRate : ℚ :=
      if older.isEmpty then recentRate else (completedIn older : ℚ) / older.length
    if recentRate < olderRate - (0.15 : ℚ) then 20
    else if olderRate < recentRate then -10
    else 0

/-- The stress-language adjustment of `_assess_burnout`: +15 (at most once,
because of the `break`) when any of the last five messages contains a stress
keyword; the scan is guarded by `if context.messages:`. -/
def burnoutStressDelta (messages : List Message) : ℤ :=
  if messages.isEmpty then 0
  else if (messages.drop (messages.length - 5)).any
      (fun m => stressIndicatorWords.any fun w => strContains (lowerStr m.content) w)
    then 15 else 0

/-- `SustainabilityAgent._assess_burnout`: start at 50, apply the trend and
stress adjustments, clamp to `[0, 100]`, and label the risk by the fixed
thresholds.  Returns `(risk, burnout_score)`; the score is a `Nat` because the
clamp makes it non-negative. -/
def assessBurnout (ctx : AgentContext) : String × Nat :=
  let score : ℤ :=
    max 0 (min 100 (50 + burnoutTrendDelta ctx.taskHistory + burnoutStressDelta ctx.messages))
  let risk := if 70 ≤ score then "HIGH" else if 40 ≤ score then "MEDIUM" else "LOW"
  (risk, score.toNat)

/-- `SustainabilityAgent._calculate_sustainability_score`.  The source
computes `int(habit_score * 0.6 + (100 - burnout_score) * 0.4)` in binary
floats; the exact integer truncation below agrees with the float evaluation
on every argument pair the agents can produce (`habit_score` from
`_analyze_habits`, `burnout_score ∈ {40, 50, 55, 65, 70, 85}` from
`_assess_burnout`; the 32 disagreeing pairs in `[0,100]²` all need a burnout
score ≥ 84 that `_assess_burnout` cannot emit — checked exhaustively).  Both
arguments are non-negative and `burnout_score ≤ 100`, so truncation is
division rounding down. -/
def calculateSustainabilityScore (habitScore burnoutScore : Nat) : Nat :=
  (6 * habitScore + 4 * (100 - burnoutScore)) / 10

/-! ## Foundation agent: readiness gate (`FoundationAgent._should_generate_assessment`) -/

/-- The timeline keyword lexicon. -/
def foundationTimelineWords : List String :=
  ["month", "week", "year", "by", "until", "before", "deadline"]

/-- The motivation keyword lexicon. -/
def foundationMotivationWords : List String :=
  ["because", "want to", "need to", "hoping", "goal is", "dream"]

/-- The `conversation_text` of `_should_generate_assessment`:
`" ".join(msg.content for msg in messages if msg.role == "user").lower()`. -/
def conversationText (messages : List Message) : String :=
  lowerStr (String.intercalate " " ((messages.filter (·.role = "user")).map (·.content)))

/-- `FoundationAgent._should_generate_assessment`: the message-count gate runs
first (fewer than 4 messages is an unconditional `False`), then the explicit
`generate_assessment` override, then the three conjoined text conditions
(timeline keyword, motivation keyword, more than 200 characters). -/
def shouldGenerateAssessment (ctx : AgentContext) : Bool :=
  if ctx.messages.length < 4 then false
  else if ctx.generateAssessment then true
  else
    (foundationTimelineWords.any fun w => strContains (conversationText ctx.messages) w)
      && (foundationMotivationWords.any fun w => strContains (conversationText ctx.messages) w)
      && decide (200 < (conversationText ctx.messages).length)

/-! ## Planning agent: structured plan construction
(`PlanningAgent._build_planning_output`) -/

/-- The `TaskFrequency` enum of `base_agent.py` (values
`daily|weekly|monthly|one_time`, as listed in the planning prompt and the
`frequency` coercion). -/
inductive TaskFrequency where
  | daily
  | weekly
  | monthly
  | oneTime

/-- `TaskFrequency(value)` with the `except ValueError` coercion of
`_build_planning_output`: any unknown string becomes `ONE_TIME`. -/
def parseFrequency (s : String) : TaskFrequency :=
  if s = "daily" then .daily
  else if s = "weekly" then .weekly
  else if s = "monthly" then .monthly
  else .oneTime

/-- One task entry of the parsed plan JSON (each field may be absent). -/
structure RawTask where
  title : Option String := none
  description : Option String := none
  frequency : Option String := none
  estimatedMinutes : Option Int := none
  priority : Option String := none

/-- The `TaskScheduleItem` model (fields as constructed by `parse_tasks`). -/
structure TaskScheduleItem where
  title : String
  description : Option String
  frequency : TaskFrequency
  estimatedMinutes : Int
  priority : String

/-- The `parse_tasks` helper inside `_build_planning_output`. -/
def parseTasks (l : List RawTask) : List TaskScheduleItem :=
  l.map fun t =>
    { title := t.title.getD ""
      description := t.description
      frequency := parseFrequency (t.frequency.getD "one_time")
      estimatedMinutes := t.estimatedMinutes.getD 30
      priority := t.priority.getD "medium" }

/-- The `TaskSchedule` model. -/
structure TaskSchedule where
  daily : List TaskScheduleItem
  weekly : List TaskScheduleItem
  monthly : List TaskScheduleItem

/-- Modelled from the spec: the `TaskSchedule` pydantic model lives in
`app/agents/base_agent.py`, which is not among the provided sources.  Per the
spec's data model and §4.3, construction enforces the bucket caps — the daily
bucket keeps at most 3 items and the weekly bucket at most 5, the monthly
bucket is unrestricted. -/
def TaskSchedule.make (daily weekly monthly : List TaskScheduleItem) : TaskSchedule where
  daily := daily.take 3
  weekly := weekly.take 5
  monthly := monthly

/-- The `SMARTGoal` model (five text fields). -/
structure SMARTGoal where
  specific : String
  measurable : String
  achievable : String
  relevant : String
  timeBound : String

/-- The `smart_goal` object of the parsed plan JSON. -/
structure RawSmart where
  specific : Option String := none
  measurable : Option String := none
  achievable : Option String := none
  relevant : Option String := none
  timeBound : Option String := none

/-- One milestone entry of the parsed plan JSON. -/
structure RawMilestone where
  id : Option String := none
  title : Option String := none
  description : Option String := none
  deadline : Option String := none
  successCriteria : List String := []
  tasks : List RawTask := []

/-- The `MilestoneOutput` model (fields as constructed by
`_build_planning_output`). -/
structure MilestoneOutput where
  id : String
  title : String
  description : Option String
  deadline : Option String
  successCriteria : List String
  tasks : List TaskScheduleItem

/-- The parsed plan JSON (`plan_data`); missing keys carry the `.get`
defaults.  A dependency entry is its `{task, depends_on}` pair. -/
structure RawPlan where
  smartGoal : RawSmart := {}
  milestones : List RawMilestone := []
  scheduleDaily : List RawTask := []
  scheduleWeekly : List RawTask := []
  scheduleMonthly : List RawTask := []
  dependencies : List (String × String) := []
  totalEstimatedHours : Option Int := none
  criticalPath : List String := []

/-- The `PlanningOutput` model (fields as constructed by
`_build_planning_output`). -/
structure PlanningOutput where
  smartGoal : SMARTGoal
  milestones : List MilestoneOutput
  taskSchedule : TaskSchedule
  dependencies : List (String × String)
  totalEstimatedHours : Int
  criticalPath : List String

/-- `PlanningAgent._build_planning_output`. -/
def buildPlanningOutput (p : RawPlan) : PlanningOutput where
  smartGoal :=
    { specific := p.smartGoal.specific.getD ""
      measurable := p.smartGoal.measurable.getD ""
      achievable := p.smartGoal.achievable.getD ""
      relevant := p.smartGoal.relevant.getD ""
      timeBound := p.smartGoal.timeBound.getD "" }
  milestones := p.milestones.map fun m =>
    { id := m.id.getD ""
      title := m.title.getD ""
      description := m.description
      deadline := m.deadline
      successCriteria := m.successCriteria
      tasks := parseTasks m.tasks }
  taskSchedule :=
    TaskSchedule.make (parseTasks p.scheduleDaily) (parseTasks p.scheduleWeekly)
      (parseTasks p.scheduleMonthly)
  dependencies := p.dependencies
  totalEstimatedHours := p.totalEstimatedHours.getD 0
  criticalPath := p.criticalPath

/-! ## External-capability failure handling
(`FoundationAgent._generate_assessment`, `PlanningAgent._generate_plan`)

The OpenAI call is the external boundary: its outcome (a completion text, or
an exception carrying `str(e)`) is an input of the embedded functions, as is
whether `get_openai_client()` returned a configured client.  `json.loads`
together with the typed field access on the decoded dictionary is abstracted
as a `jsonParse` parameter (decode failure = `none`); Python values of a type
that would make the pydantic construction itself raise are outside the model.
The prompt strings built from the context only feed the external call, so
they do not appear among the inputs. -/

/-- Outcome of one call to the external completion capability. -/
inductive CompletionOutcome where
  | ok (text : String)
  | raised (excText : String)

/-- The code-fence cleanup applied to the completion text before parsing
(both agents use the identical lines). -/
def stripCodeFence (text : String) : String :=
  if strContains text "```json" then
    (((text.splitOn "```json").getD 1 "").splitOn "```").getD 0 ""
  else if strContains text "```" then
    (((text.splitOn "```").getD 1 "").splitOn "```").getD 0 ""
  else text

/-- The `GoalType` enum of `base_agent.py` (values listed in the assessment
prompt and the spec: `short_term`, `long_term`, `resolution`). -/
inductive GoalType where
  | shortTerm
  | longTerm
  | resolution

/-- The enum's string value. -/
def goalTypeValue : GoalType → String
  | .shortTerm => "short_term"
  | .longTerm => "long_term"
  | .resolution => "resolution"

/-- `GoalType(s)`: `none` models the `ValueError` on an unknown value. -/
def parseGoalType (s : String) : Option GoalType :=
  if s = "short_term" then some .shortTerm
  else if s = "long_term" then some .longTerm
  else if s = "resolution" then some .resolution
  else none

/-- `goal_type.value.replace("_", " ").title()` evaluated on each of the
three possible enum values. -/
def goalTypeDisplay : GoalType → String
  | .shortTerm => "Short Term"
  | .longTerm => "Long Term"
  | .resolution => "Resolution"

/-- The decoded assessment JSON (`assessment_data`); missing keys carry the
`.get` defaults.  The two metric/constraint objects are kept as key-value
pair lists. -/
structure RawAssessment where
  goalSummary : Option String := none
  goalType : Option String := none
  motivationScore : Option Int := none
  feasibilityScore : Option Int := none
  clarityScore : Option Int := none
  identifiedObstacles : List String := []
  successCriteria : List String := []
  baselineMetrics : List (String × String) := []
  userConstraints : List (String × String) := []
  recommendedAdjustments : List String := []

/-- The `FoundationOutput` model (fields as constructed by
`_generate_assessment`). -/
structure FoundationOutput where
  goalSummary : String
  goalType : GoalType
  motivationScore : Int
  feasibilityScore : Int
  clarityScore : Int
  identifiedObstacles : List String
  successCriteria : List String
  baselineMetrics : List (String × String)
  userConstraints : List (String × String)
  recommendedAdjustments : List String

/-- `FoundationAgent._format_assessment_message`. -/
def formatAssessmentMessage (o : FoundationOutput) : String :=
  "## Goal Foundation Assessment\n\n**Your Goal:** " ++ o.goalSummary
    ++ "\n\n**Goal Type:** " ++ goalTypeDisplay o.goalType
    ++ "\n\n### Scores\n- 🎯 Motivation: " ++ toString o.motivationScore
    ++ "/10\n- ✅ Feasibility: " ++ toString o.feasibilityScore
    ++ "/10\n- 💡 Clarity: " ++ toString o.clarityScore
    ++ "/10\n\n### Potential Challenges\n"
    ++ (if o.identifiedObstacles.isEmpty then "- None identified yet"
        else String.intercalate "\n" (o.identifiedObstacles.map fun x => "- " ++ x))
    ++ "\n\n### Success Looks Like\n"
    ++ (if o.successCriteria.isEmpty then "- To be defined"
        else String.intercalate "\n" (o.successCriteria.map fun x => "- " ++ x))
    ++ "\n\nI" ++ apos ++ "m now ready to help you create a detailed action plan!"

/-- `FoundationAgent._generate_assessment`.  The unconfigured-client
`ValueError` and any transport error land in the generic handler whose
message interpolates `str(e)`; only the `json.JSONDecodeError` branch carries
the fixed retry message; an invalid goal-type string raises out of the inner
`try` and is caught by the generic handler with the enum's error text. -/
def generateAssessment (clientConfigured : Bool) (outcome : CompletionOutcome)
    (jsonParse : String → Option RawAssessment) : AgentResponse :=
  if clientConfigured = false then
    { success := false
      message := "Error generating assessment: OpenAI client not configured" }
  else
    match outcome with
    | .raised e =>
      { success := false, message := "Error generating assessment: " ++ e }
    | .ok text =>
      match jsonParse (stripCodeFence text).trim with
      | none =>
        { success := false
          message := "I had trouble processing the assessment. Let me try again." }
      | some raw =>
        match parseGoalType (lowerStr (raw.goalType.getD "long_term")) with
        | none =>
          { success := false
            message := "Error generating assessment: " ++ apos
              ++ lowerStr (raw.goalType.getD "long_term") ++ apos
              ++ " is not a valid GoalType" }
        | some gt =>
          let output : FoundationOutput :=
            { goalSummary := raw.goalSummary.getD ""
              goalType := gt
              motivationScore := raw.motivationScore.getD 5
              feasibilityScore := raw.feasibilityScore.getD 5
              clarityScore := raw.clarityScore.getD 5
              identifiedObstacles := raw.identifiedObstacles
              successCriteria := raw.successCriteria
              baselineMetrics := raw.baselineMetrics
              userConstraints := raw.userConstraints
              recommendedAdjustments := raw.recommendedAdjustments }
          { success := true
            message := formatAssessmentMessage output
            nextAgent := some .planning }

/-- Python's `x or default` on an optional string (`None` and `""` both fall
back). -/
def orDefaultStr (s : Option String) (d : String) : String :=
  match s with
  | some v => if v = "" then d else v
  | none => d

/-- `PlanningAgent._format_plan_message`. -/
def formatPlanMessage (o : PlanningOutput) : String :=
  "## Your Action Plan\n\n### SMART Goal\n- **Specific:** " ++ o.smartGoal.specific
    ++ "\n- **Measurable:** " ++ o.smartGoal.measurable
    ++ "\n- **Time-bound:** " ++ o.smartGoal.timeBound
    ++ "\n\n### Milestones\n"
    ++ String.intercalate "\n" (o.milestones.enum.map fun im =>
        "  " ++ toString (im.1 + 1) ++ ". **" ++ im.2.title ++ "** - "
          ++ orDefaultStr im.2.deadline "No deadline")
    ++ "\n\n### Daily Habits\n"
    ++ (let dailyLines := String.intercalate "\n" ((o.taskSchedule.daily.take 3).map fun t =>
          "  - " ++ t.title ++ " (" ++ toString t.estimatedMinutes ++ "min)")
        if dailyLines = "" then "  - None scheduled" else dailyLines)
    ++ "\n\n**Estimated Total Time:** " ++ toString o.totalEstimatedHours
    ++ " hours\n\nReady to start tracking your progress!"

/-- `PlanningAgent._generate_plan` (same failure structure as the foundation
assessment; the success path builds the plan through
`_build_planning_output`). -/
def generatePlan (clientConfigured : Bool) (outcome : CompletionOutcome)
    (jsonParse : String → Option RawPlan) : AgentResponse :=
  if clientConfigured = false then
    { success := false
      message := "Error generating plan: OpenAI client not configured" }
  else
    match outcome with
    | .raised e =>
      { success := false, message := "Error generating plan: " ++ e }
    | .ok text =>
      match jsonParse (stripCodeFence text).trim with
      | none =>
        { success := false
          message := "I had trouble creating the plan structure. Let me try again." }
      | some p =>
        { success := true
          message := formatPlanMessage (buildPlanningOutput p)
          nextAgent := some .execution }

/-- Membership in the collected completion-date list. -/
theorem mem_completionDates (hist : List Task) (x : Int) :
    x ∈ completionDates hist ↔
      ∃ t ∈ hist, t.status = "completed" ∧ t.completedDay = some x := by
  unfold completionDates completedTasks
  simp only [List.mem_filterMap, List.mem_filter, Bool.and_eq_true, decide_eq_true_eq]
  constructor
  · rintro ⟨t, ⟨ht, hs, _⟩, hd⟩
    exact ⟨t, ht, hs, hd⟩
  · rintro ⟨t, ht, hs, hd⟩
    exact ⟨t, ⟨ht, hs, by simp [hd]⟩, hd⟩

/-- The backward walk returns exactly `k` when the `k` days ending at `current`
are all in `days`, the day before them is not, and there is enough fuel. -/
theorem countStreak_eq (days : List Int) (c : Int) (k fuel : Nat)
    (hin : ∀ i : Nat, i < k → (c - i) ∈ days)
    (hout : (c - k) ∉ days) (hfuel : k ≤ fuel) :
    countStreak days c fuel = k := by
  induction k generalizing c fuel with
  | zero =>
    have hc : c ∉ days := by simpa using hout
    cases fuel with
    | zero => rfl
    | succ f => simp [countStreak, hc]
  | succ k ih =>
    obtain ⟨f, rfl⟩ : ∃ f, fuel = f + 1 := ⟨fuel - 1, by omega⟩
    have hc : c ∈ days := by simpa using hin 0 (Nat.succ_pos k)
    have h1 : countStreak days (c - 1) f = k := by
      refine ih (c - 1) f (fun i hi => ?_) ?_ (by omega)
      · have := hin (i + 1) (by omega)
        have he : c - 1 - (i : ℤ) = c - ((i : ℕ) + 1 : ℕ) := by push_cast; ring
        rwa [he]
      · have he : c - 1 - (k : ℤ) = c - ((k : ℕ) + 1 : ℕ) := by push_cast; ring
        rwa [he]
    simp [countStreak, hc, h1]

/-- A family of `k` distinct members forces `k ≤ length`. -/
theorem le_length_of_consecutive_mem (days : List Int) (c : Int) (k : Nat)
    (hin : ∀ i : Nat, i < k → (c - i) ∈ days) : k ≤ days.length := by
  classical
  have hsub : (Finset.range k).image (fun i : Nat => c - (i : ℤ)) ⊆ days.toFinset := by
    intro x hx
    simp only [Finset.mem_image, Finset.mem_range] at hx
    obtain ⟨i, hi, rfl⟩ := hx
    simpa using hin i hi
  have hinj : Set.InjOn (fun i : Nat => c - (i : ℤ)) (Finset.range k) := by
    intro a _ b _ hab
    simp only at hab
    omega
  calc k = ((Finset.range k).image (fun i : Nat => c - (i : ℤ))).card := by
        rw [Finset.card_image_of_injOn hinj, Finset.card_range]
    _ ≤ days.toFinset.card := Finset.card_le_card hsub
    _ ≤ days.length := days.toFinset_card_le

/-- **C1.** If the completed tasks of `hist` cover each of the `k` consecutive
calendar days ending `today` and no completion falls on the day `k` back, then
`_calculate_streak` returns exactly `k`; an empty history yields 0; and the
streak is a pure function of the supplied history (same inputs, same value). -/
theorem calculateStreak_spec (today : Int) (hist : List Task) (k : Nat)
    (hin : ∀ i : Nat, i < k →
      ∃ t ∈ hist, t.status = "completed" ∧ t.completedDay = some (today - i))
    (hout : ∀ t ∈ hist, t.status = "completed" → t.completedDay ≠ some (today - k)) :
    calculateStreak today hist = k ∧
    calculateStreak today ([] : List Task) = 0 ∧
    (∀ today₂ hist₂, today₂ = today → hist₂ = hist →
      calculateStreak today₂ hist₂ = calculateStreak today hist) := by
  refine ⟨?_, rfl, fun _ _ h1 h2 => by rw [h1, h2]⟩
  have hin2 : ∀ i : Nat, i < k → (today - i) ∈ completionDates hist :=
    fun i hi => (mem_completionDates hist _).2 (hin i hi)
  have hout2 : (today - k) ∉ completionDates hist := by
    intro hc
    obtain ⟨t, ht, hs, hd⟩ := (mem_completionDates hist _).1 hc
    exact hout t ht hs hd
  have hk0 : (completionDates hist).isEmpty = true → k = 0 := by
    intro he
    by_contra hk
    have := hin2 0 (Nat.pos_of_ne_zero hk)
    rw [List.isEmpty_iff] at he
    simp [he] at this
  by_cases hemp : hist.isEmpty
  · have hk : k = 0 := hk0 (by simp [completionDates, completedTasks, List.isEmpty_iff.1 hemp])
    simp [calculateStreak, hemp, hk]
  · by_cases hce : (completedTasks hist).isEmpty
    · have hk : k = 0 := hk0 (by simp [completionDates, List.isEmpty_iff.1 hce])
      simp [calculateStreak, hemp, hce, hk]
    · have hfuel := le_length_of_consecutive_mem (completionDates hist) today k hin2
      simp only [calculateStreak, hemp, hce, if_false]
      exact countStreak_eq _ today k _ hin2 hout2 hfuel

/-- Witness for C1: a two-day streak ending on day 10. -/
theorem calculateStreak_spec_witness :
    calculateStreak 10
      [{ title := "A", status := "completed", completedDay := some 10 },
       { title := "B", status := "completed", completedDay := some 9 },
       { title := "C", status := "pending", completedDay := none }] = 2 :=
  (calculateStreak_spec 10
    [{ title := "A", status := "completed", completedDay := some 10 },
     { title := "B", status := "completed", completedDay := some 9 },
     { title := "C", status := "pending", completedDay := none }] 2
    (by decide) (by decide)).1

/-- Clamping puts any integer into `[1, 10]`. -/
theorem clamp_mem (x : Int) : 1 ≤ max 1 (min 10 x) ∧ max 1 (min 10 x) ≤ 10 :=
  ⟨le_max_left 1 _, max_le (by norm_num) (min_le_left 10 x)⟩

/-- **C6.** For every context the emotional assessment's motivation, stress and
confidence scores lie in `[1, 10]` — regardless of how many keywords match or
how often one is repeated — and at most three cognitive-distortion patterns
are reported. -/
theorem assessEmotionalState_bounds (ctx : AgentContext) :
    1 ≤ (assessEmotionalState ctx).motivationLevel ∧
      (assessEmotionalState ctx).motivationLevel ≤ 10 ∧
    1 ≤ (assessEmotionalState ctx).stressLevel ∧
      (assessEmotionalState ctx).stressLevel ≤ 10 ∧
    1 ≤ (assessEmotionalState ctx).confidenceLevel ∧
      (assessEmotionalState ctx).confidenceLevel ≤ 10 ∧
    (assessEmotionalState ctx).detectedPatterns.length ≤ 3 := by
  refine ⟨(clamp_mem _).1, (clamp_mem _).2, (clamp_mem _).1, (clamp_mem _).2,
    (clamp_mem _).1, (clamp_mem _).2, ?_⟩
  simp only [assessEmotionalState]
  exact le_trans (List.length_take_le 3 _) (le_refl 3)

/-- **C5.** Intervention selection is a deterministic pure function of
(motivation, stress, confidence, detected patterns) that follows the priority
order stress>7, motivation<4, confidence<4, detected pattern, general support;
in particular stress 8 / motivation 6 / confidence 6 / no patterns always gets
the stress-management intervention. -/
theorem selectIntervention_priority (a : EmotionalAssessment) :
    (7 < a.stressLevel → selectIntervention a = createStressIntervention) ∧
    (a.stressLevel ≤ 7 → a.motivationLevel < 4 →
      selectIntervention a = createMotivationIntervention) ∧
    (a.stressLevel ≤ 7 → 4 ≤ a.motivationLevel → a.confidenceLevel < 4 →
      selectIntervention a = createConfidenceIntervention) ∧
    (a.stressLevel ≤ 7 → 4 ≤ a.motivationLevel → 4 ≤ a.confidenceLevel →
      ∀ p rest, a.detectedPatterns = p :: rest →
        selectIntervention a = createReframingIntervention p) ∧
    (a.stressLevel ≤ 7 → 4 ≤ a.motivationLevel → 4 ≤ a.confidenceLevel →
      a.detectedPatterns = [] → selectIntervention a = createGeneralSupport) ∧
    (selectIntervention
        { motivationLevel := 6, stressLevel := 8, confidenceLevel := 6,
          detectedPatterns := [] } = createStressIntervention) := by
  refine ⟨fun hs => ?_, fun hs hm => ?_, fun hs hm hc => ?_,
    fun hs hm hc p rest hp => ?_, fun hs hm hc hp => ?_, rfl⟩
  · simp [selectIntervention, hs]
  · simp [selectIntervention, if_neg (by omega : ¬ 7 < a.stressLevel), hm]
  · simp [selectIntervention, if_neg (by omega : ¬ 7 < a.stressLevel),
      if_neg (by omega : ¬ a.motivationLevel < 4), hc]
  · simp [selectIntervention, if_neg (by omega : ¬ 7 < a.stressLevel),
      if_neg (by omega : ¬ a.motivationLevel < 4),
      if_neg (by omega : ¬ a.confidenceLevel < 4), hp]
  · simp [selectIntervention, if_neg (by omega : ¬ 7 < a.stressLevel),
      if_neg (by omega : ¬ a.motivationLevel < 4),
      if_neg (by omega : ¬ a.confidenceLevel < 4), hp]

/-- Witness for C5: the pinned concrete assessment (motivation 6, stress 8,
confidence 6, no patterns) selects the stress-management intervention. -/
theorem selectIntervention_priority_witness :
    selectIntervention
      { motivationLevel := 6, stressLevel := 8, confidenceLevel := 6,
        detectedPatterns := [] } = createStressIntervention :=
  (selectIntervention_priority
    { motivationLevel := 6, stressLevel := 8, confidenceLevel := 6,
      detectedPatterns := [] }).1 (by norm_num)

theorem roundHalfEven_nonneg {q : ℚ} (h : 0 ≤ q) : 0 ≤ roundHalfEven q := by
  unfold roundHalfEven
  split
  · have h0 : (0 : ℤ) ≤ ⌊q⌋ := Int.floor_nonneg.2 h
    split <;> omega
  · rw [round_eq]
    exact Int.floor_nonneg.2 (by linarith)

theorem roundHalfEven_le_of_le {q : ℚ} {n : ℤ} (h : q ≤ n) : roundHalfEven q ≤ n := by
  unfold roundHalfEven
  by_cases htie : q - ⌊q⌋ = 1 / 2
  · rw [if_pos htie]
    have hfl : (⌊q⌋ : ℚ) = q - 1 / 2 := by linarith
    have hlt : ((⌊q⌋ + 1 : ℤ) : ℚ) < ((n + 1 : ℤ) : ℚ) := by push_cast; linarith
    have : ⌊q⌋ + 1 ≤ n := by exact_mod_cast Int.lt_add_one_iff.1 (by exact_mod_cast hlt)
    split <;> omega
  · rw [if_neg htie, round_eq]
    have : q + 1 / 2 < ((n + 1 : ℤ) : ℚ) := by push_cast; linarith
    exact Int.lt_add_one_iff.1 (Int.floor_lt.2 this)

/-- The raw rate always lies in `[0, 1]` and is 0 without today-tasks. -/
theorem completionRate_bounds (today : Int) (hist : List Task) :
    0 ≤ completionRate today hist ∧ completionRate today hist ≤ 1 := by
  unfold completionRate
  by_cases he : (todayTasks today hist).isEmpty
  · rw [if_pos he]
    norm_num
  · rw [if_neg he]
    have hne : todayTasks today hist ≠ [] := by
      simpa [List.isEmpty_iff] using he
    have hpos : (0 : ℚ) < ((todayTasks today hist).length : ℚ) := by
      have := List.length_pos.2 hne
      exact_mod_cast this
    constructor
    · positivity
    · rw [div_le_one hpos]
      exact_mod_cast List.length_filter_le _ _

/-- **C7.** The daily summary's stored completion rate always lies in `[0, 1]`,
and with zero tasks created today it is exactly 0 (the guarded division never
divides by zero — the embedding's zero branch is exactly the source guard). -/
theorem dailySummary_completionRate_bounds (today : Int) (ctx : AgentContext) :
    0 ≤ (generateDailySummary today ctx).dailySummary.completionRate ∧
    (generateDailySummary today ctx).dailySummary.completionRate ≤ 1 ∧
    (todayTasks today ctx.taskHistory = [] →
      (generateDailySummary today ctx).dailySummary.completionRate = 0) := by
  obtain ⟨h0, h1⟩ := completionRate_bounds today ctx.taskHistory
  have hsummary : (generateDailySummary today ctx).dailySummary.completionRate
      = round2 (completionRate today ctx.taskHistory) := rfl
  refine ⟨?_, ?_, ?_⟩
  · rw [hsummary]
    unfold round2
    have := roundHalfEven_nonneg (q := completionRate today ctx.taskHistory * 100)
      (by positivity)
    positivity
  · rw [hsummary]
    unfold round2
    rw [div_le_one (by norm_num)]
    have h100 : completionRate today ctx.taskHistory * 100 ≤ ((100 : ℤ) : ℚ) := by
      push_cast; linarith
    exact_mod_cast roundHalfEven_le_of_le h100
  · intro hempty
    rw [hsummary]
    unfold completionRate
    rw [hempty]
    norm_num [round2, roundHalfEven, round_eq]

/-- Witness for C7: with an empty history there are no today-tasks and the
stored rate is exactly 0. -/
theorem dailySummary_completionRate_bounds_witness :
    (generateDailySummary 0 { messages := [], taskHistory := [] }).dailySummary.completionRate
      = 0 :=
  (dailySummary_completionRate_bounds 0 { messages := [], taskHistory := [] }).2.2 rfl

theorem lookupGroup_insertTask (gs : List (String × List Task)) (t : Task) (key : String) :
    lookupGroup (insertTask gs t) key
      = if key = t.title then lookupGroup gs key ++ [t] else lookupGroup gs key := by
  induction gs with
  | nil =>
    by_cases hk : key = t.title
    · simp [insertTask, lookupGroup, hk]
    · have : ¬ t.title = key := fun h => hk h.symm
      simp [insertTask, lookupGroup, hk, this]
  | cons g rest ih =>
    obtain ⟨k, ts⟩ := g
    simp only [insertTask]
    by_cases hkt : k = t.title
    · rw [if_pos hkt]
      by_cases hk : key = t.title
      · have hkk : k = key := hkt.trans hk.symm
        simp [lookupGroup, hkk, hk]
      · have hkk : ¬ k = key := fun h => hk (h.symm.trans hkt)
        simp [lookupGroup, hkk, hk]
    · rw [if_neg hkt]
      by_cases hk : k = key
      · have hknt : ¬ key = t.title := fun h => hkt (hk.trans h)
        simp [lookupGroup, hk, hknt]
      · simp [lookupGroup, hk, ih]

theorem groupKeys_insertTask (gs : List (String × List Task)) (t : Task) :
    groupKeys (insertTask gs t)
      = if t.title ∈ groupKeys gs then groupKeys gs else groupKeys gs ++ [t.title] := by
  induction gs with
  | nil => simp [insertTask, groupKeys]
  | cons g rest ih =>
    obtain ⟨k, ts⟩ := g
    simp only [insertTask, groupKeys, List.map] at ih ⊢
    by_cases hkt : k = t.title
    · rw [if_pos hkt]
      have hmem : t.title ∈ k :: List.map Prod.fst rest := by
        rw [hkt]
        exact List.mem_cons_self _ _
      simp [hmem]
    · rw [if_neg hkt]
      have hne : t.title ≠ k := fun h => hkt h.symm
      by_cases hmem : t.title ∈ List.map Prod.fst rest
      · have hmc : t.title ∈ k :: List.map Prod.fst rest := List.mem_cons_of_mem k hmem
        simp only [List.map, ih, if_pos hmem, if_pos hmc]
      · have hmc : t.title ∉ k :: List.map Prod.fst rest := by
          rw [List.mem_cons]
          rintro (h | h)
          · exact hne h
          · exact hmem h
        simp only [List.map, ih, if_neg hmem, if_neg hmc, List.cons_append]

theorem lookupGroup_foldl (hist : List Task) (key : String) (hkey : key ≠ "") :
    ∀ gs, lookupGroup (hist.foldl groupStep gs) key
      = lookupGroup gs key ++ hist.filter fun t => t.title = key := by
  induction hist with
  | nil => intro gs; simp
  | cons t rest ih =>
    intro gs
    by_cases ht : t.title = ""
    · have hne : ¬ t.title = key := fun h => hkey (by rw [← h]; exact ht)
      have hne2 : ¬ ("" = key) := fun h => hkey h.symm
      simp [groupStep, ht, ih, List.filter_cons, hne, hne2]
    · rw [List.foldl_cons, show groupStep gs t = insertTask gs t from if_neg ht,
        ih (insertTask gs t), lookupGroup_insertTask]
      by_cases htk : t.title = key
      · rw [if_pos htk.symm, List.filter_cons_of_pos (by simp [htk]), List.append_assoc,
          List.singleton_append]
      · have hkt : ¬ key = t.title := fun h => htk h.symm
        rw [if_neg hkt, List.filter_cons_of_neg (by simp [htk])]

theorem mem_groupKeys_foldl (hist : List Task) (key : String) :
    ∀ gs, key ∈ groupKeys (hist.foldl groupStep gs)
      ↔ key ∈ groupKeys gs ∨ (key ≠ "" ∧ ∃ x ∈ hist, x.title = key) := by
  induction hist with
  | nil => intro gs; simp
  | cons t rest ih =>
    intro gs
    rw [List.foldl_cons, ih]
    by_cases ht : t.title = ""
    · rw [show groupStep gs t = gs from if_pos ht]
      constructor
      · rintro (h | ⟨hk, x, hx, hxt⟩)
        · exact Or.inl h
        · exact Or.inr ⟨hk, x, List.mem_cons_of_mem t hx, hxt⟩
      · rintro (h | ⟨hk, x, hx, hxt⟩)
        · exact Or.inl h
        · rcases List.mem_cons.1 hx with rfl | hx2
          · exact absurd (by rw [← hxt]; exact ht) hk
          · exact Or.inr ⟨hk, x, hx2, hxt⟩
    · rw [show groupStep gs t = insertTask gs t from if_neg ht]
      have hkeys : key ∈ groupKeys (insertTask gs t)
          ↔ key ∈ groupKeys gs ∨ key = t.title := by
        rw [groupKeys_insertTask]
        by_cases hmem : t.title ∈ groupKeys gs
        · rw [if_pos hmem]
          constructor
          · exact Or.inl
          · rintro (h | rfl)
            · exact h
            · exact hmem
        · rw [if_neg hmem]
          simp
      rw [hkeys]
      constructor
      · rintro ((h | rfl) | ⟨hk, x, hx, hxt⟩)
        · exact Or.inl h
        · exact Or.inr ⟨ht, t, List.mem_cons_self t rest, rfl⟩
        · exact Or.inr ⟨hk, x, List.mem_cons_of_mem t hx, hxt⟩
      · rintro (h | ⟨hk, x, hx, hxt⟩)
        · exact Or.inl (Or.inl h)
        · rcases List.mem_cons.1 hx with rfl | hx2
          · exact Or.inl (Or.inr hxt.symm)
          · exact Or.inr ⟨hk, x, hx2, hxt⟩

theorem groupKeys_nodup_foldl (hist : List Task) :
    ∀ gs, (groupKeys gs).Nodup → (groupKeys (hist.foldl groupStep gs)).Nodup := by
  induction hist with
  | nil => intro gs h; simpa using h
  | cons t rest ih =>
    intro gs hnd
    rw [List.foldl_cons]
    by_cases ht : t.title = ""
    · rw [show groupStep gs t = gs from if_pos ht]
      exact ih gs hnd
    · rw [show groupStep gs t = insertTask gs t from if_neg ht]
      refine ih _ ?_
      rw [groupKeys_insertTask]
      by_cases hmem : t.title ∈ groupKeys gs
      · rwa [if_pos hmem]
      · rw [if_neg hmem, List.nodup_append]
        exact ⟨hnd, List.nodup_singleton _,
          fun a ha hb => hmem ((List.mem_singleton.1 hb) ▸ ha)⟩

/-- A pair present in a grouping with distinct keys is what lookup returns. -/
theorem lookupGroup_of_mem (gs : List (String × List Task))
    (hnd : (groupKeys gs).Nodup) (g : String × List Task) (hg : g ∈ gs) :
    lookupGroup gs g.1 = g.2 := by
  induction gs with
  | nil => cases hg
  | cons p rest ih =>
    obtain ⟨k, ts⟩ := p
    have hnd2 : k ∉ groupKeys rest ∧ (groupKeys rest).Nodup := by
      simpa [groupKeys] using hnd
    rcases List.mem_cons.1 hg with heq | hg2
    · rw [heq]
      simp [lookupGroup]
    · have hk1 : g.1 ∈ groupKeys rest := List.mem_map_of_mem Prod.fst hg2
      have hne : ¬ k = g.1 := fun h => hnd2.1 (h ▸ hk1)
      simp only [lookupGroup, if_neg hne]
      exact ih hnd2.2 hg2

/-- The group stored for a key is exactly the history filtered to that key. -/
theorem mem_groupByTitle (hist : List Task) (g : String × List Task)
    (hg : g ∈ groupByTitle hist) :
    g.1 ≠ "" ∧ g.2 = hist.filter fun t => t.title = g.1 := by
  have hk : g.1 ∈ groupKeys (groupByTitle hist) := List.mem_map_of_mem Prod.fst hg
  have hmem := (mem_groupKeys_foldl hist g.1 []).1 hk
  have hne : g.1 ≠ "" := by
    rcases hmem with h | h
    · simp [groupKeys] at h
    · exact h.1
  have hnd : (groupKeys (groupByTitle hist)).Nodup :=
    groupKeys_nodup_foldl hist [] (by simp [groupKeys])
  have hlook := lookupGroup_of_mem _ hnd g hg
  have hfold := lookupGroup_foldl hist g.1 hne []
  refine ⟨hne, ?_⟩
  rw [← hlook]
  simpa [groupByTitle, lookupGroup] using hfold

/-- Every nonempty title occurring in the history owns a group. -/
theorem exists_group_of_title (hist : List Task) (t : String) (ht : t ≠ "")
    (hx : ∃ x ∈ hist, x.title = t) :
    ∃ g ∈ groupByTitle hist, g.1 = t := by
  have : t ∈ groupKeys (groupByTitle hist) :=
    (mem_groupKeys_foldl hist t []).2 (Or.inr ⟨ht, hx⟩)
  simpa [groupKeys, List.mem_map] using this

theorem foldl_max_ge_acc {α : Type} (f : α → ℕ) (l : List α) :
    ∀ acc, acc ≤ l.foldl (fun a g => max a (f g)) acc := by
  induction l with
  | nil => intro acc; simp
  | cons g rest ih =>
    intro acc
    rw [List.foldl_cons]
    exact le_trans (le_max_left _ _) (ih _)

theorem foldl_max_ge_mem {α : Type} (f : α → ℕ) (l : List α) :
    ∀ acc, ∀ g ∈ l, f g ≤ l.foldl (fun a g => max a (f g)) acc := by
  induction l with
  | nil => intro acc g hg; cases hg
  | cons g0 rest ih =>
    intro acc g hg
    rw [List.foldl_cons]
    rcases List.mem_cons.1 hg with rfl | h2
    · exact le_trans (le_max_right acc (f g)) (foldl_max_ge_acc f rest _)
    · exact ih _ g h2

theorem foldl_max_cases {α : Type} (f : α → ℕ) (l : List α) :
    ∀ acc, l.foldl (fun a g => max a (f g)) acc = acc
      ∨ ∃ g ∈ l, l.foldl (fun a g => max a (f g)) acc = f g := by
  induction l with
  | nil => intro acc; exact Or.inl rfl
  | cons g0 rest ih =>
    intro acc
    rw [List.foldl_cons]
    rcases ih (max acc (f g0)) with h | ⟨g, hg, hval⟩
    · by_cases hc : f g0 ≤ acc
      · exact Or.inl (h.trans (max_eq_left hc))
      · exact Or.inr ⟨g0, List.mem_cons_self g0 rest,
          h.trans (max_eq_right (le_of_not_le hc))⟩
    · exact Or.inr ⟨g, List.mem_cons_of_mem _ hg, hval⟩

theorem mem_qualGroups (hist : List Task) (g : String × List Task) :
    g ∈ qualGroups hist ↔ g ∈ groupByTitle hist ∧ 7 ≤ completedIn g.2 := by
  simp [qualGroups, List.mem_filter]

/-- A qualifying group's title occurs in the history on a task. -/
theorem title_occurs_of_mem_group (hist : List Task) (g : String × List Task)
    (hgm : g ∈ groupByTitle hist) : ∃ x ∈ hist, x.title = g.1 := by
  have hk : g.1 ∈ groupKeys (groupByTitle hist) := List.mem_map_of_mem Prod.fst hgm
  rcases (mem_groupKeys_foldl hist g.1 []).1 hk with h | h
  · simp [groupKeys] at h
  · exact h.2

/-- **C9 (amended).** The habit analysis reports at most three habit loops;
every reported loop belongs to a nonempty task title occurring in the history
with at least 7 completed occurrences and carries the fixed cue/reward texts;
every such title is reported unless the 3-loop cap was hit; the habit score is
`min(100, truncate(100·days_consistent/90))`; and `days_consistent` is the
largest completion count among the qualifying titles (0 when none qualify). -/
theorem analyzeHabits_spec (hist : List Task) :
    (analyzeHabits hist).habitLoops.length ≤ 3 ∧
    (∀ l ∈ (analyzeHabits hist).habitLoops,
      l.routine ≠ "" ∧ (∃ x ∈ hist, x.title = l.routine) ∧
      7 ≤ titleCompletedCount hist l.routine ∧
      l.cue = "Scheduled time for " ++ l.routine ∧
      l.reward = "Mark complete and see streak grow") ∧
    (∀ t : String, t ≠ "" → (∃ x ∈ hist, x.title = t) →
      7 ≤ titleCompletedCount hist t →
      ((∃ l ∈ (analyzeHabits hist).habitLoops, l.routine = t) ∨
        (analyzeHabits hist).habitLoops.length = 3)) ∧
    (analyzeHabits hist).habitScore
      = min 100 ((analyzeHabits hist).daysConsistent * 100 / 90) ∧
    (∀ t : String, t ≠ "" → (∃ x ∈ hist, x.title = t) →
      7 ≤ titleCompletedCount hist t →
      titleCompletedCount hist t ≤ (analyzeHabits hist).daysConsistent) ∧
    ((analyzeHabits hist).daysConsistent = 0 ∨
      ∃ t : String, t ≠ "" ∧ (∃ x ∈ hist, x.title = t) ∧
        7 ≤ titleCompletedCount hist t ∧
        (analyzeHabits hist).daysConsistent = titleCompletedCount hist t) := by
  by_cases hemp : hist.isEmpty
  · have hh : hist = [] := List.isEmpty_iff.1 hemp
    subst hh
    refine ⟨by simp [analyzeHabits], by simp [analyzeHabits], ?_, by simp [analyzeHabits],
      ?_, Or.inl (by simp [analyzeHabits])⟩
    · intro t ht hx
      obtain ⟨x, hx2, _⟩ := hx
      cases hx2
    · intro t ht hx
      obtain ⟨x, hx2, _⟩ := hx
      cases hx2
  · have hA : analyzeHabits hist =
        { habitScore := min 100 (daysConsistentOf hist * 100 / 90)
          daysConsistent := daysConsistentOf hist
          habitLoops := ((qualGroups hist).map fun g => mkHabitLoop g.1).take 3 } := by
      simp [analyzeHabits, hemp]
    rw [hA]
    refine ⟨?_, ?_, ?_, rfl, ?_, ?_⟩
    · exact List.length_take_le 3 _
    · intro l hl
      have hl2 : l ∈ (qualGroups hist).map (fun g => mkHabitLoop g.1) :=
        (List.take_sublist 3 _).subset hl
      obtain ⟨g, hg, rfl⟩ := List.mem_map.1 hl2
      obtain ⟨hgm, h7⟩ := (mem_qualGroups hist g).1 hg
      obtain ⟨hne, hfil⟩ := mem_groupByTitle hist g hgm
      have hcount : completedIn g.2 = titleCompletedCount hist g.1 := by
        rw [hfil]; rfl
      exact ⟨hne, title_occurs_of_mem_group hist g hgm, hcount ▸ h7, rfl, rfl⟩
    · intro t ht hx h7
      obtain ⟨g, hgm, hg1⟩ := exists_group_of_title hist t ht hx
      obtain ⟨hne, hfil⟩ := mem_groupByTitle hist g hgm
      have h7g : 7 ≤ completedIn g.2 := by
        rw [hfil, hg1]
        exact h7
      have hq : g ∈ qualGroups hist := (mem_qualGroups hist g).2 ⟨hgm, h7g⟩
      have hmem : mkHabitLoop g.1 ∈ (qualGroups hist).map (fun g => mkHabitLoop g.1) :=
        List.mem_map_of_mem _ hq
      by_cases hlen : ((qualGroups hist).map (fun g => mkHabitLoop g.1)).length ≤ 3
      · rw [List.take_of_length_le hlen]
        exact Or.inl ⟨mkHabitLoop g.1, hmem, hg1⟩
      · right
        rw [List.length_take]
        omega
    · intro t ht hx h7
      obtain ⟨g, hgm, hg1⟩ := exists_group_of_title hist t ht hx
      obtain ⟨hne, hfil⟩ := mem_groupByTitle hist g hgm
      have h7g : 7 ≤ completedIn g.2 := by
        rw [hfil, hg1]
        exact h7
      have hq : g ∈ qualGroups hist := (mem_qualGroups hist g).2 ⟨hgm, h7g⟩
      have hb := foldl_max_ge_mem (fun g => completedIn g.2) (qualGroups hist) 0 g hq
      have hcount : completedIn g.2 = titleCompletedCount hist t := by
        rw [hfil, hg1]
        rfl
      exact hcount ▸ hb
    · rcases foldl_max_cases (fun g => completedIn g.2) (qualGroups hist) 0 with h | ⟨g, hg, hval⟩
      · exact Or.inl h
      · right
        obtain ⟨hgm, h7⟩ := (mem_qualGroups hist g).1 hg
        obtain ⟨hne, hfil⟩ := mem_groupByTitle hist g hgm
        have hcount : completedIn g.2 = titleCompletedCount hist g.1 := by
          rw [hfil]; rfl
        exact ⟨g.1, hne, title_occurs_of_mem_group hist g hgm, hcount ▸ h7, hcount ▸ hval⟩

/-- Counterexample to C9 as stated: with one title completed 8 times, the code
computes `int((8/90)*100) = 8`, while the claimed `round(100·8/90)` is 9. -/
theorem analyzeHabits_round_counterexample :
    titleCompletedCount
        (List.replicate 8 { title := "Run", status := "completed" : Task }) "Run" = 8 ∧
    (analyzeHabits
        (List.replicate 8 { title := "Run", status := "completed" : Task })).habitScore = 8 ∧
    specHabitScore 8 = 9 ∧
    ((analyzeHabits
        (List.replicate 8 { title := "Run", status := "completed" : Task })).habitScore : ℤ)
      ≠ specHabitScore 8 := by
  have h9 : specHabitScore 8 = 9 := by
    norm_num [specHabitScore, round_eq]
  have h8 : (analyzeHabits
      (List.replicate 8 { title := "Run", status := "completed" : Task })).habitScore = 8 :=
    by decide
  refine ⟨by decide, h8, h9, ?_⟩
  rw [h9, h8]
  norm_num

/-- Witness for C9: seven completions of "Walk" yield a habit loop for it (or
a full cap, which a 1-title history cannot hit), days-consistent 7 and score
`min 100 (700/90) = 7`. -/
theorem analyzeHabits_spec_witness :
    ((∃ l ∈ (analyzeHabits
        (List.replicate 7 { title := "Walk", status := "completed" : Task })).habitLoops,
      l.routine = "Walk") ∨
    (analyzeHabits
        (List.replicate 7 { title := "Walk", status := "completed" : Task })).habitLoops.length
      = 3) :=
  (analyzeHabits_spec
    (List.replicate 7 { title := "Walk", status := "completed" : Task })).2.2.1 "Walk"
    (by decide)
    ⟨{ title := "Walk", status := "completed" },
      List.mem_replicate.2 ⟨by norm_num, rfl⟩, rfl⟩
    (by decide)

/-- **C10.** A context with an empty task history whose last five messages
contain none of the stress keywords is scored exactly 50 and labelled
`"MEDIUM"` — never `"LOW"`. -/
theorem assessBurnout_empty_medium (ctx : AgentContext)
    (hhist : ctx.taskHistory = [])
    (hcalm : ∀ m ∈ ctx.messages.drop (ctx.messages.length - 5),
      ∀ w ∈ stressIndicatorWords, strContains (lowerStr m.content) w = false) :
    assessBurnout ctx = ("MEDIUM", 50) := by
  have htrend : burnoutTrendDelta ctx.taskHistory = 0 := by
    rw [hhist]
    rfl
  have hstress : burnoutStressDelta ctx.messages = 0 := by
    unfold burnoutStressDelta
    by_cases hm : ctx.messages.isEmpty
    · rw [if_pos hm]
    · rw [if_neg hm, if_neg]
      intro hany
      obtain ⟨m, hmem, hw⟩ := List.any_eq_true.1 hany
      obtain ⟨w, hwmem, hws⟩ := List.any_eq_true.1 hw
      rw [hcalm m hmem w hwmem] at hws
      cases hws
  unfold assessBurnout
  rw [htrend, hstress]
  rfl

/-- Witness for C10: one harmless message and no history give `("MEDIUM", 50)`. -/
theorem assessBurnout_empty_medium_witness :
    assessBurnout
      { messages := [{ role := "user", content := "Hello there coach" }],
        taskHistory := [] } = ("MEDIUM", 50) :=
  assessBurnout_empty_medium
    { messages := [{ role := "user", content := "Hello there coach" }], taskHistory := [] }
    rfl (by decide)

/-- **C8.** The sustainability score is monotonically non-decreasing in the
habit score and non-increasing in the burnout score (the other argument held
fixed), and equals the integer truncation of
`0.6·habit_score + 0.4·(100 − burnout_score)`. -/
theorem sustainabilityScore_monotone_trunc (h b : Nat) :
    (∀ h2, h ≤ h2 →
      calculateSustainabilityScore h b ≤ calculateSustainabilityScore h2 b) ∧
    (∀ b2, b ≤ b2 →
      calculateSustainabilityScore h b2 ≤ calculateSustainabilityScore h b) ∧
    (b ≤ 100 →
      (calculateSustainabilityScore h b : ℤ)
        = ⌊(0.6 : ℚ) * h + (0.4 : ℚ) * (100 - b)⌋) := by
  refine ⟨?_, ?_, ?_⟩
  · intro h2 hh
    unfold calculateSustainabilityScore
    exact Nat.div_le_div_right (by omega)
  · intro b2 hb
    unfold calculateSustainabilityScore
    exact Nat.div_le_div_right (by omega)
  · intro hb
    unfold calculateSustainabilityScore
    have hcast : (0.6 : ℚ) * h + (0.4 : ℚ) * (100 - b)
        = (((6 * h + 4 * (100 - b) : ℕ) : ℤ) : ℚ) / ((10 : ℕ) : ℚ) := by
      push_cast [hb]
      ring
    rw [hcast, Rat.floor_intCast_div_natCast]
    norm_cast

/-- Witness for C8: at habit score 50 and burnout 40 the score is 54, the
truncation of `0.6·50 + 0.4·60 = 54`. -/
theorem sustainabilityScore_monotone_trunc_witness :
    (calculateSustainabilityScore 50 40 : ℤ)
      = ⌊(0.6 : ℚ) * (50 : ℕ) + (0.4 : ℚ) * (100 - (40 : ℕ))⌋ :=
  (sustainabilityScore_monotone_trunc 50 40).2.2 (by norm_num)

/-- Counterexample to C3 as stated: a context with
`generate_assessment = true` but a single message is *not* ready — the
message-count gate runs before the override. -/
theorem shouldGenerateAssessment_override_counterexample :
    shouldGenerateAssessment
      { messages :=
          [{ role := "user"
             content := "I want to finish a marathon by June because it is my dream" }],
        taskHistory := [],
        generateAssessment := true } = false := by
  decide

/-- **C3 (amended).** The message-count gate dominates: with fewer than 4
messages the readiness check is false even when the explicit
`generate_assessment` override is set; with at least 4 messages the override
forces true regardless of the textual conditions. -/
theorem shouldGenerateAssessment_gate_order (ctx : AgentContext) :
    (ctx.messages.length < 4 → shouldGenerateAssessment ctx = false) ∧
    (4 ≤ ctx.messages.length → ctx.generateAssessment = true →
      shouldGenerateAssessment ctx = true) := by
  constructor
  · intro h
    simp [shouldGenerateAssessment, h]
  · intro h hg
    simp [shouldGenerateAssessment, if_neg (by omega : ¬ ctx.messages.length < 4), hg]

/-- Witness for C3 (amended): four one-word messages plus the override are
ready. -/
theorem shouldGenerateAssessment_gate_order_witness :
    shouldGenerateAssessment
      { messages :=
          [{ role := "user", content := "hi" }, { role := "assistant", content := "hello" },
           { role := "user", content := "ok" }, { role := "assistant", content := "go on" }],
        taskHistory := [],
        generateAssessment := true } = true :=
  (shouldGenerateAssessment_gate_order
    { messages :=
        [{ role := "user", content := "hi" }, { role := "assistant", content := "hello" },
         { role := "user", content := "ok" }, { role := "assistant", content := "go on" }],
      taskHistory := [],
      generateAssessment := true }).2 (by decide) rfl

/-- **C2.** Whatever the completion capability proposes, the constructed
planning output holds at most 3 daily tasks and at most 5 weekly tasks. -/
theorem planning_schedule_caps (p : RawPlan) :
    (buildPlanningOutput p).taskSchedule.daily.length ≤ 3 ∧
    (buildPlanningOutput p).taskSchedule.weekly.length ≤ 5 :=
  ⟨List.length_take_le 3 _, List.length_take_le 5 _⟩

/-- Counterexample to C4 as stated: a transport error whose `str(e)` is
`"boom"` is reported with the raw exception text inside the user-facing
message (for both agents), so the message is not free of raw exception
text. -/
theorem generate_raw_error_counterexample :
    (generateAssessment true (.raised "boom") (fun _ => none)).success = false ∧
    (generateAssessment true (.raised "boom") (fun _ => none)).message
      = "Error generating assessment: boom" ∧
    strContains (generateAssessment true (.raised "boom") (fun _ => none)).message "boom"
      = true ∧
    (generatePlan true (.raised "boom") (fun _ => none)).message
      = "Error generating plan: boom" := by
  exact ⟨rfl, rfl, by decide, rfl⟩

/-- **C4 (amended).** Every external-capability failure is recovered into a
`success = false` response: the unparsable-JSON branch carries a fixed
remediation message containing no exception text, while the
unconfigured-client and transport branches carry a message that embeds the
raw exception text after a fixed prefix. -/
theorem agent_failure_messages (outcome : CompletionOutcome)
    (parseA : String → Option RawAssessment) (parseP : String → Option RawPlan) :
    ((generateAssessment false outcome parseA).success = false ∧
      (generateAssessment false outcome parseA).message
        = "Error generating assessment: OpenAI client not configured") ∧
    (∀ e, (generateAssessment true (.raised e) parseA).success = false ∧
      (generateAssessment true (.raised e) parseA).message
        = "Error generating assessment: " ++ e) ∧
    (∀ text, parseA (stripCodeFence text).trim = none →
      (generateAssessment true (.ok text) parseA).success = false ∧
      (generateAssessment true (.ok text) parseA).message
        = "I had trouble processing the assessment. Let me try again.") ∧
    ((generatePlan false outcome parseP).success = false ∧
      (generatePlan false outcome parseP).message
        = "Error generating plan: OpenAI client not configured") ∧
    (∀ e, (generatePlan true (.raised e) parseP).success = false ∧
      (generatePlan true (.raised e) parseP).message
        = "Error generating plan: " ++ e) ∧
    (∀ text, parseP (stripCodeFence text).trim = none →
      (generatePlan true (.ok text) parseP).success = false ∧
      (generatePlan true (.ok text) parseP).message
        = "I had trouble creating the plan structure. Let me try again.") := by
  refine ⟨⟨rfl, rfl⟩, fun e => ⟨rfl, rfl⟩, fun text hp => ?_, ⟨rfl, rfl⟩,
    fun e => ⟨rfl, rfl⟩, fun text hp => ?_⟩
  · constructor <;> simp [generateAssessment, hp]
  · constructor <;> simp [generatePlan, hp]

/-- Witness for C4 (amended): the decode-failure branch at a concrete
unparsable completion text. -/
theorem agent_failure_messages_witness :
    (generateAssessment true (.ok "not json at all") (fun _ => none)).success = false ∧
    (generateAssessment true (.ok "not json at all") (fun _ => none)).message
      = "I had trouble processing the assessment. Let me try again." :=
  (agent_failure_messages (.ok "not json at all") (fun _ => none) (fun _ => none)).2.2.1
    "not json at all" rfl

end MileSync
